import Mathlib

/-!
Shallow embedding of the `ai-developer-tools-mcp` server (JavaScript sources
under `src/`).  The data fixture, metric engine, the four tool operations and
the request dispatcher are translated into executable Lean definitions, and
the behavioural claims about them are settled as theorems below.

Conventions of the embedding:
* JavaScript numbers are modelled as `Nat` where the source only ever holds a
  non-negative integer, and as `ℚ` where the source computes fractions
  (growth percentages, averages).
* A JavaScript value that may be `undefined` is modelled as an `Option`.
* An `async` tool `execute` that may throw is modelled as
  `Except String String`: `.error msg` is a thrown error with that message,
  `.ok text` is a resolved text result.
-/

/-- One tool entry of `TOOLS` in `src/data/mock-data.js`. -/
structure ToolRecord where
  name : String
  package : String
  description : String
  category : String
deriving DecidableEq, Repr

/-- One entry of `CURRENT_METRICS` in `src/data/mock-data.js`. -/
structure MetricsSnapshot where
  npm_downloads_monthly : Nat
  npm_downloads_weekly : Nat
  github_stars : Nat
  stackoverflow_questions_30d : Nat
  reddit_mentions_30d : Nat
  last_updated : String
deriving DecidableEq, Repr

/-- One monthly sample of `HISTORICAL_DATA` in `src/data/mock-data.js`. -/
structure HistoryPoint where
  month : String
  downloads : Nat
deriving DecidableEq, Repr

/-- Default `HistoryPoint` used for (never-taken) out-of-range list reads. -/
def dfltHP : HistoryPoint := ⟨"", 0⟩

/-- `TOOLS` from `src/data/mock-data.js`, as an entry list in object insertion
order (the order `Object.entries` iterates). -/
def TOOLS_entries : List (String × ToolRecord) :=
  [ ("openai",
      { name := "OpenAI SDK", package := "openai",
        description := "Official OpenAI API client", category := "llm-api" }),
    ("anthropic",
      { name := "Anthropic SDK", package := "@anthropic-ai/sdk",
        description := "Official Anthropic API client", category := "llm-api" }),
    ("cursor",
      { name := "Cursor", package := "cursor-api",
        description := "AI-first code editor", category := "editor" }),
    ("copilot",
      { name := "GitHub Copilot", package := "@github/copilot",
        description := "AI pair programmer", category := "assistant" }),
    ("langchain",
      { name := "LangChain", package := "langchain",
        description := "Framework for LLM applications", category := "framework" }) ]

/-- Property lookup `TOOLS[id]` (an absent key reads as `undefined`). -/
def TOOLS (id : String) : Option ToolRecord :=
  (TOOLS_entries.find? (fun e => e.1 == id)).map (·.2)

/-- `CURRENT_METRICS` from `src/data/mock-data.js`, in insertion order. -/
def CURRENT_METRICS_entries : List (String × MetricsSnapshot) :=
  [ ("openai",
      { npm_downloads_monthly := 36143000, npm_downloads_weekly := 8650000,
        github_stars := 18500, stackoverflow_questions_30d := 145,
        reddit_mentions_30d := 892, last_updated := "2025-01-15" }),
    ("anthropic",
      { npm_downloads_monthly := 13925000, npm_downloads_weekly := 3349000,
        github_stars := 4200, stackoverflow_questions_30d := 67,
        reddit_mentions_30d := 423, last_updated := "2025-01-15" }),
    ("cursor",
      { npm_downloads_monthly := 450000, npm_downloads_weekly := 112000,
        github_stars := 12300, stackoverflow_questions_30d := 89,
        reddit_mentions_30d := 1250, last_updated := "2025-01-15" }),
    ("copilot",
      { npm_downloads_monthly := 2100000, npm_downloads_weekly := 525000,
        github_stars := 8900, stackoverflow_questions_30d := 234,
        reddit_mentions_30d := 678, last_updated := "2025-01-15" }),
    ("langchain",
      { npm_downloads_monthly := 5711000, npm_downloads_weekly := 1427000,
        github_stars := 87500, stackoverflow_questions_30d := 456,
        reddit_mentions_30d := 1890, last_updated := "2025-01-15" }) ]

/-- Property lookup `CURRENT_METRICS[id]`. -/
def CURRENT_METRICS (id : String) : Option MetricsSnapshot :=
  (CURRENT_METRICS_entries.find? (fun e => e.1 == id)).map (·.2)

/-- Default metrics record for (never-taken) lookups of ids absent from the
fixture; every id in `TOOLS` has a `CURRENT_METRICS` entry. -/
def dfltMetrics : MetricsSnapshot := ⟨0, 0, 0, 0, 0, ""⟩

/-- `HISTORICAL_DATA` from `src/data/mock-data.js`, in insertion order. -/
def HISTORICAL_DATA_entries : List (String × List HistoryPoint) :=
  [ ("openai",
      [ ⟨"2024-07", 18500000⟩, ⟨"2024-08", 21200000⟩, ⟨"2024-09", 24800000⟩,
        ⟨"2024-10", 28100000⟩, ⟨"2024-11", 32400000⟩, ⟨"2024-12", 36143000⟩ ]),
    ("anthropic",
      [ ⟨"2024-07", 6200000⟩, ⟨"2024-08", 7800000⟩, ⟨"2024-09", 9500000⟩,
        ⟨"2024-10", 11200000⟩, ⟨"2024-11", 12800000⟩, ⟨"2024-12", 13925000⟩ ]),
    ("cursor",
      [ ⟨"2024-07", 120000⟩, ⟨"2024-08", 180000⟩, ⟨"2024-09", 250000⟩,
        ⟨"2024-10", 320000⟩, ⟨"2024-11", 390000⟩, ⟨"2024-12", 450000⟩ ]),
    ("copilot",
      [ ⟨"2024-07", 1800000⟩, ⟨"2024-08", 1850000⟩, ⟨"2024-09", 1920000⟩,
        ⟨"2024-10", 1980000⟩, ⟨"2024-11", 2050000⟩, ⟨"2024-12", 2100000⟩ ]),
    ("langchain",
      [ ⟨"2024-07", 4100000⟩, ⟨"2024-08", 4450000⟩, ⟨"2024-09", 4820000⟩,
        ⟨"2024-10", 5200000⟩, ⟨"2024-11", 5450000⟩, ⟨"2024-12", 5711000⟩ ]) ]

/-- Property lookup `HISTORICAL_DATA[id]`. -/
def HISTORICAL_DATA (id : String) : Option (List HistoryPoint) :=
  (HISTORICAL_DATA_entries.find? (fun e => e.1 == id)).map (·.2)

/-! ## Metric engine (`src/data/mock-data.js`) -/

/-- `calculateGrowth(current, previous)`.  The `previous` argument is an
`Option` so that a JavaScript call with `undefined` can be expressed; the
source guard `if (!previous || previous === 0) return 0` maps `none` and `0`
to `0`. -/
def calculateGrowth (current : ℚ) (previous : Option ℚ) : ℚ :=
  match previous with
  | none => 0
  | some p => if p = 0 then 0 else (current - p) / p * 100

/-- Result record of `getGrowthMetrics`. -/
structure GrowthMetrics where
  current : Nat
  previous : Nat
  growth_pct : ℚ
  period_months : Nat
deriving DecidableEq, Repr

/-- Core of `getGrowthMetrics` as a function of the history list it reads:
`history[history.length - 1]` is the latest sample and
`history[Math.max(0, history.length - 1 - months)]` the comparison sample
(`Nat` subtraction performs exactly the `Math.max(0, ...)` clamp).  With
fewer than two samples the source returns `null`, modelled as `none`. -/
def getGrowthMetricsOf (history : List HistoryPoint) (months : Nat) :
    Option GrowthMetrics :=
  if history.length < 2 then none
  else
    let latest := history.getD (history.length - 1) dfltHP
    let compare := history.getD (history.length - 1 - months) dfltHP
    some { current := latest.downloads, previous := compare.downloads,
           growth_pct :=
             calculateGrowth (latest.downloads : ℚ) (some (compare.downloads : ℚ)),
           period_months := months }

/-- `getGrowthMetrics(toolId, months)` — looks up `HISTORICAL_DATA[toolId]`
(`null` for an unknown id, modelled as `none`) then applies the core above. -/
def getGrowthMetrics (toolId : String) (months : Nat) : Option GrowthMetrics :=
  match HISTORICAL_DATA toolId with
  | none => none
  | some history => getGrowthMetricsOf history months

/-- The growth percentage a caller observes from
`getGrowthMetrics(...)?.growth_pct || 0` (both `src/tools/trending.js` and
`src/tools/compare.js` coalesce the `null` record — and a falsy `0` — to `0`). -/
def growthPctOfHistory (history : List HistoryPoint) (months : Nat) : ℚ :=
  ((getGrowthMetricsOf history months).map (·.growth_pct)).getD 0

/-- Joined row `{id, ...TOOLS[id], ...CURRENT_METRICS[id]}` produced by
`searchTools` and `getToolsByMetric`. -/
structure SToolRow where
  id : String
  name : String
  package : String
  description : String
  category : String
  npm_downloads_monthly : Nat
  npm_downloads_weekly : Nat
  github_stars : Nat
  stackoverflow_questions_30d : Nat
  reddit_mentions_30d : Nat
  last_updated : String
deriving DecidableEq, Repr

/-- Build the spread-merge row for one id (metrics lookup never misses on the
fixture; the default is dead). -/
def mkRow (id : String) (t : ToolRecord) : SToolRow :=
  let m := (CURRENT_METRICS id).getD dfltMetrics
  { id := id, name := t.name, package := t.package,
    description := t.description, category := t.category,
    npm_downloads_monthly := m.npm_downloads_monthly,
    npm_downloads_weekly := m.npm_downloads_weekly,
    github_stars := m.github_stars,
    stackoverflow_questions_30d := m.stackoverflow_questions_30d,
    reddit_mentions_30d := m.reddit_mentions_30d,
    last_updated := m.last_updated }

/-- `(b[metric] || 0)` — dynamic field read used by the `getToolsByMetric`
sort comparator; an unknown metric name reads as `0`. -/
def metricValue (row : SToolRow) (metric : String) : Nat :=
  if metric == "npm_downloads_monthly" then row.npm_downloads_monthly
  else if metric == "npm_downloads_weekly" then row.npm_downloads_weekly
  else if metric == "github_stars" then row.github_stars
  else if metric == "stackoverflow_questions_30d" then row.stackoverflow_questions_30d
  else if metric == "reddit_mentions_30d" then row.reddit_mentions_30d
  else 0

/-- `getToolsByMetric(metric, limit)`: join, stable sort descending by the
metric, then `slice(0, limit)`.  ECMAScript `Array.prototype.sort` is a
stable comparator sort; it is modelled by the (stable) insertion sort over
the preorder induced by the comparator `(b[metric]||0) - (a[metric]||0)`. -/
def getToolsByMetric (metric : String) (limit : Nat) : List SToolRow :=
  (List.insertionSort
    (fun a b => metricValue b metric ≤ metricValue a metric)
    (CURRENT_METRICS_entries.map
      (fun e => mkRow e.1 (((TOOLS e.1).getD ⟨"", "", "", ""⟩))))).take limit

/-- JavaScript truthiness of an optional string (`undefined` and `""` are
falsy). -/
def jsTruthyS : Option String → Bool
  | none => false
  | some s => !(s == "")

/-- JavaScript truthiness of an optional non-negative number (`undefined` and
`0` are falsy). -/
def jsTruthyN : Option Nat → Bool
  | none => false
  | some n => !(n == 0)

/-- Character-list version of `String.startsWith` used by the substring
search below. -/
def jsStartsWithList : List Char → List Char → Bool
  | [], _ => true
  | _ :: _, [] => false
  | c :: cs, d :: ds => c == d && jsStartsWithList cs ds

/-- Substring occurrence on character lists. -/
def jsIncludesList (sub : List Char) : List Char → Bool
  | [] => jsStartsWithList sub []
  | d :: ds => jsStartsWithList sub (d :: ds) || jsIncludesList sub ds

/-- JavaScript `s.includes(sub)`. -/
def jsIncludes (s sub : String) : Bool :=
  jsIncludesList sub.toList s.toList

/-- JavaScript `s.toLowerCase()` (the fixture is ASCII, so per-character
lowercasing agrees with the JS Unicode mapping on all reachable inputs). -/
def toLowerStr (s : String) : String := ⟨s.data.map Char.toLower⟩

/-- Query object accepted by `searchTools` in `src/data/mock-data.js`. -/
structure SearchQuery where
  category : Option String := none
  min_downloads : Option Nat := none
  keyword : Option String := none
deriving DecidableEq, Repr

/-- `searchTools(query)` from `src/data/mock-data.js`: join all `TOOLS`
entries with their metrics, then conjunctively apply the three optional
filters, each guarded by JS truthiness of the corresponding query field. -/
def searchToolsData (query : SearchQuery) : List SToolRow :=
  let results := TOOLS_entries.map (fun e => mkRow e.1 e.2)
  let results :=
    if jsTruthyS query.category then
      results.filter (fun t => t.category == query.category.getD "")
    else results
  let results :=
    if jsTruthyN query.min_downloads then
      results.filter (fun t => query.min_downloads.getD 0 ≤ t.npm_downloads_monthly)
    else results
  if jsTruthyS query.keyword then
    let lowerKeyword := toLowerStr (query.keyword.getD "")
    results.filter (fun t =>
      jsIncludes (toLowerStr t.name) lowerKeyword ||
      jsIncludes (toLowerStr t.description) lowerKeyword)
  else results

/-! ## Number and date rendering helpers shared by the tool modules -/

/-- JavaScript `x.toFixed(1)` on the rationals the tools produce (ties round
up, which agrees with the reachable values). -/
def ratToFixed1 (q : ℚ) : String :=
  let n : Int := round (q * 10)
  let sign := if n < 0 then "-" else ""
  sign ++ toString (n.natAbs / 10) ++ "." ++ toString (n.natAbs % 10)

/-- JavaScript `x.toFixed(0)`. -/
def ratToFixed0 (q : ℚ) : String := toString (round q)

/-- Rendering of a JavaScript number that is an integer (the only case the
tools reach in the plain branch of `formatNumber`). -/
def jsNumToString (q : ℚ) : String :=
  if q.den == 1 then toString q.num else toString q

/-- `formatNumber(num)` as defined identically in `search.js`, `trending.js`,
`compare.js`, `history.js` and `formatters.js`. -/
def formatNumber (num : ℚ) : String :=
  if 1000000 ≤ num then ratToFixed1 (num / 1000000) ++ "M"
  else if 1000 ≤ num then ratToFixed0 (num / 1000) ++ "K"
  else jsNumToString num

/-- Short month name of a two-digit month string, as produced by
`toLocaleDateString("en-US", { month: "short" })`. -/
def monthShortName (mm : String) : String :=
  if mm == "01" then "Jan" else if mm == "02" then "Feb"
  else if mm == "03" then "Mar" else if mm == "04" then "Apr"
  else if mm == "05" then "May" else if mm == "06" then "Jun"
  else if mm == "07" then "Jul" else if mm == "08" then "Aug"
  else if mm == "09" then "Sep" else if mm == "10" then "Oct"
  else if mm == "11" then "Nov" else if mm == "12" then "Dec"
  else "Invalid"

/-- `formatDate` of the alternate history tool:
`new Date(ym + "-01").toLocaleDateString("en-US", {year: "numeric", month: "short"})`. -/
def formatDateYM (ym : String) : String :=
  match ym.splitOn "-" with
  | [y, m] => monthShortName m ++ " " ++ y
  | _ => "Invalid Date"

/-- The argument object of a `tools/call` request, with one optional field
per property any of the four input schemas mentions (a field the caller did
not supply is `undefined` = `none`). -/
structure Args where
  tools : Option (List String) := none
  time_range : Option String := none
  limit : Option Nat := none
  category : Option String := none
  min_downloads : Option Nat := none
  keyword : Option String := none
  sort_by : Option String := none
  tool : Option String := none
  months : Option Nat := none
deriving DecidableEq, Repr

/-! ## Search tool (`src/tools/search.js`, the registered implementation) -/

/-- The result list of `searchTool.execute` after the `sort_by` dispatch
(`localeCompare` on the ASCII fixture names is modelled as case-insensitive
lexicographic order). -/
def searchResultsOf (args : Args) : List SToolRow :=
  let results := searchToolsData
    ⟨args.category, args.min_downloads, args.keyword⟩
  let sort_by := args.sort_by.getD "downloads"
  if sort_by == "downloads" then
    List.insertionSort
      (fun a b => b.npm_downloads_monthly ≤ a.npm_downloads_monthly) results
  else if sort_by == "stars" then
    List.insertionSort (fun a b => b.github_stars ≤ a.github_stars) results
  else if sort_by == "name" then
    List.insertionSort (fun a b => toLowerStr a.name ≤ toLowerStr b.name) results
  else results

/-- The `activeFilters` array of `searchTool.execute`. -/
def searchActiveFilters (args : Args) : List String :=
  (if jsTruthyS args.category then ["Category: " ++ args.category.getD ""] else []) ++
  (if jsTruthyN args.min_downloads then
    ["Min Downloads: " ++ formatNumber ((args.min_downloads.getD 0 : Nat) : ℚ)] else []) ++
  (if jsTruthyS args.keyword then ["Keyword: \"" ++ args.keyword.getD "" ++ "\""] else [])

/-- Title plus filters section of the search output (everything the source
appends to `output` before inspecting `results.length`). -/
def searchHeader (args : Args) : String :=
  "🔍 AI Developer Tools Search Results\n\n" ++
  (if !(searchActiveFilters args).isEmpty then
    "**Filters:** " ++ String.intercalate " | " (searchActiveFilters args) ++ "\n" ++
    "**Sort:** " ++ args.sort_by.getD "downloads" ++ "\n\n"
  else "")

/-- One numbered result block of the search output. -/
def searchToolBlock (idx : Nat) (t : SToolRow) : String :=
  toString (idx + 1) ++ ". **" ++ t.name ++ "** (`" ++ t.package ++ "`)\n" ++
  "   - " ++ t.description ++ "\n" ++
  "   - Category: " ++ t.category ++ "\n" ++
  "   - Monthly Downloads: " ++ formatNumber ((t.npm_downloads_monthly : Nat) : ℚ) ++ "\n" ++
  "   - GitHub Stars: " ++ formatNumber ((t.github_stars : Nat) : ℚ) ++ "\n" ++
  "   - Community: " ++ toString t.stackoverflow_questions_30d ++ " SO questions, " ++
    toString t.reddit_mentions_30d ++ " Reddit mentions (30d)\n\n"

/-- The `**Found N tools:**` line plus all result blocks. -/
def searchFoundSection (args : Args) : String :=
  let res := searchResultsOf args
  "**Found " ++ toString res.length ++ " tool" ++
    (if res.length == 1 then "" else "s") ++ ":**\n\n" ++
  String.join (res.enum.map (fun p => searchToolBlock p.1 p.2))

/-- `results.reduce((sum, t) => sum + t.npm_downloads_monthly, 0)`. -/
def sumDownloads (res : List SToolRow) : Nat :=
  res.foldl (fun s t => s + t.npm_downloads_monthly) 0

/-- The summary-statistics section: total of the result set and
`Math.round(total / count)` formatted. -/
def searchSummaryBlock (total count : Nat) : String :=
  "**Summary Statistics**\n" ++
  "• Total Monthly Downloads: " ++ formatNumber ((total : Nat) : ℚ) ++ "\n" ++
  "• Average per Tool: " ++
    formatNumber (((round ((total : ℚ) / (count : ℚ)) : ℤ) : ℚ)) ++ "\n"

/-- The complete text built by `searchTool.execute`: on an empty result set
the function returns after appending the no-results line (the summary — and
with it the average over `results.length` — is never computed); otherwise the
summary is computed over exactly the returned records. -/
def searchOutput (args : Args) : String :=
  let res := searchResultsOf args
  if res.isEmpty then
    searchHeader args ++ "No tools found matching your criteria."
  else
    searchHeader args ++ searchFoundSection args ++
      searchSummaryBlock (sumDownloads res) res.length

/-- `searchTool.execute` never throws: every path returns a string. -/
def searchExecute (args : Args) : Except String String := .ok (searchOutput args)

/-! ## Trending tool (`src/tools/trending.js`) -/

/-- Row shape after `trendingTool.execute` augments a listing row with
`growth_pct` and `current_downloads`. -/
structure TrendRow where
  id : String
  name : String
  package : String
  description : String
  category : String
  npm_downloads_monthly : Nat
  npm_downloads_weekly : Nat
  github_stars : Nat
  stackoverflow_questions_30d : Nat
  reddit_mentions_30d : Nat
  last_updated : String
  growth_pct : ℚ
  current_downloads : Nat
deriving DecidableEq, Repr

/-- `{...tool, growth_pct: growth?.growth_pct || 0, current_downloads:
growth?.current || tool.npm_downloads_monthly}` — both `||` coalesce
`undefined` and a falsy `0`. -/
def mkTrendRow (t : SToolRow) (months : Nat) : TrendRow :=
  let growth := getGrowthMetrics t.id months
  { id := t.id, name := t.name, package := t.package,
    description := t.description, category := t.category,
    npm_downloads_monthly := t.npm_downloads_monthly,
    npm_downloads_weekly := t.npm_downloads_weekly,
    github_stars := t.github_stars,
    stackoverflow_questions_30d := t.stackoverflow_questions_30d,
    reddit_mentions_30d := t.reddit_mentions_30d,
    last_updated := t.last_updated,
    growth_pct := (growth.map (·.growth_pct)).getD 0,
    current_downloads :=
      match growth with
      | none => t.npm_downloads_monthly
      | some g => if g.current == 0 then t.npm_downloads_monthly else g.current }

/-- The list `trendingTool.execute` renders: full listing staged by monthly
downloads descending (`getToolsByMetric` with its default limit 10), category
filter, growth computation over a 3-month window for `90d` and 1 month
otherwise, re-sort by growth percent descending, then `slice(0, limit)`. -/
def trendingList (time_range : String) (limit : Nat) (category : String) :
    List TrendRow :=
  let toolsList := getToolsByMetric "npm_downloads_monthly" 10
  let toolsList :=
    if !(category == "all") then toolsList.filter (fun t => t.category == category)
    else toolsList
  let months := if time_range == "90d" then 3 else 1
  let toolsWithGrowth := toolsList.map (fun t => mkTrendRow t months)
  (List.insertionSort (fun a b => b.growth_pct ≤ a.growth_pct)
    toolsWithGrowth).take limit

/-- Growth icon of one trending entry. -/
def trendGrowthIcon (g : ℚ) : String :=
  if 50 < g then "🔥" else if 20 < g then "⚡" else "📈"

/-- One ranked entry of the trending output. -/
def trendingEntry (idx : Nat) (t : TrendRow) (time_range : String) : String :=
  toString (idx + 1) ++ ". " ++ trendGrowthIcon t.growth_pct ++ " **" ++
    t.name ++ "**\n" ++
  "   - Growth: +" ++ ratToFixed1 t.growth_pct ++ "% over " ++ time_range ++ "\n" ++
  "   - Current: " ++ formatNumber ((t.current_downloads : Nat) : ℚ) ++
    " downloads/month\n" ++
  "   - " ++ t.description ++ "\n"

/-- The full text built by `trendingTool.execute`. -/
def trendingOutput (time_range : String) (limit : Nat) (category : String) :
    String :=
  let trending := trendingList time_range limit category
  "🚀 Trending AI Developer Tools\n" ++
  "📅 Period: " ++ time_range ++
  (if !(category == "all") then " | Category: " ++ category else "") ++ "\n\n" ++
  "**Fastest Growing**\n" ++
  String.join (trending.enum.map (fun p => trendingEntry p.1 p.2 time_range)) ++
  "\n_Growth calculated from " ++ time_range ++ " historical data_"

/-- `trendingTool.execute` with its destructuring defaults; never throws. -/
def trendingExecute (args : Args) : Except String String :=
  .ok (trendingOutput (args.time_range.getD "30d") (args.limit.getD 5)
        (args.category.getD "all"))

/-! ## Compare tool (`src/tools/compare.js`) -/

/-- One element of the `comparison` array built by `compareTool.execute`. -/
structure CompareRow where
  id : String
  name : String
  downloads_monthly : Nat
  downloads_weekly : Nat
  github_stars : Nat
  stackoverflow_questions : Nat
  reddit_mentions : Nat
  growth_pct : ℚ
  last_updated : String
deriving DecidableEq, Repr

/-- Build one comparison record (ids are validated against `TOOLS` before
this map runs, so the `getD` defaults are dead on reachable inputs). -/
def mkCompareRow (id : String) (months : Nat) : CompareRow :=
  let tool := (TOOLS id).getD ⟨"", "", "", ""⟩
  let metrics := (CURRENT_METRICS id).getD dfltMetrics
  let growth := getGrowthMetrics id months
  { id := id, name := tool.name,
    downloads_monthly := metrics.npm_downloads_monthly,
    downloads_weekly := metrics.npm_downloads_weekly,
    github_stars := metrics.github_stars,
    stackoverflow_questions := metrics.stackoverflow_questions_30d,
    reddit_mentions := metrics.reddit_mentions_30d,
    growth_pct := (growth.map (·.growth_pct)).getD 0,
    last_updated := metrics.last_updated }

/-- `tools.map(id => ...)` of `compareTool.execute`. -/
def compareRows (ids : List String) (months : Nat) : List CompareRow :=
  ids.map (fun id => mkCompareRow id months)

/-- `arr.reduce((prev, curr) => f(curr) > f(prev) ? curr : prev)` with the
first element as the initial accumulator: on a strictly greater value the
current element replaces the accumulator, so ties keep the earlier element. -/
def reduceMaxTail {α : Type} {β : Type} [LinearOrder β] (f : α → β) :
    α → List α → α
  | x, [] => x
  | x, y :: ys => reduceMaxTail f (if f x < f y then y else x) ys

/-- The "leader" highlight: `comparison.reduce(... downloads_monthly ...)`
(`none` only on an empty array, where the source `reduce` throws). -/
def leaderOf (rows : List CompareRow) : Option CompareRow :=
  match rows with
  | [] => none
  | x :: xs => some (reduceMaxTail (fun r => r.downloads_monthly) x xs)

/-- The "fastest-growing" highlight: `comparison.reduce(... growth_pct ...)`. -/
def fastestOf (rows : List CompareRow) : Option CompareRow :=
  match rows with
  | [] => none
  | x :: xs => some (reduceMaxTail (fun r => r.growth_pct) x xs)

/-- One `NPM Downloads` line of the compare output (the arrow and bullet
literals reproduce the mojibake characters present in `compare.js`). -/
def compareDownloadLine (t : CompareRow) : String :=
  let growthIcon :=
    if 5 < t.growth_pct then "â†‘"
    else if t.growth_pct < -5 then "â†“"
    else "â†”"
  "â€¢ " ++ t.name ++ ": " ++
    formatNumber ((t.downloads_monthly : Nat) : ℚ) ++ "/month " ++ growthIcon ++
    " " ++ ratToFixed1 t.growth_pct ++ "%\n"

/-- One `Community Activity` block of the compare output. -/
def compareCommunityLines (t : CompareRow) : String :=
  "â€¢ " ++ t.name ++ ":\n" ++
  "  - GitHub Stars: " ++ formatNumber ((t.github_stars : Nat) : ℚ) ++ "\n" ++
  "  - Stack Overflow Questions: " ++ toString t.stackoverflow_questions ++ "\n" ++
  "  - Reddit Mentions: " ++ toString t.reddit_mentions ++ "\n"

/-- The full success text of `compareTool.execute`. -/
def compareOutputStr (time_range : String) (comparison : List CompareRow)
    (leader fastest first : CompareRow) : String :=
  "ðŸ“Š AI Developer Tools Comparison\n" ++
  "ðŸ“… Time Range: " ++ time_range ++ "\n\n" ++
  "**NPM Downloads (Monthly)**\n" ++
  String.join (comparison.map compareDownloadLine) ++ "\n" ++
  "**Community Activity (Last 30 Days)**\n" ++
  String.join (comparison.map compareCommunityLines) ++ "\n" ++
  "**Key Insights**\n" ++
  "â€¢ " ++ leader.name ++ " leads in adoption with " ++
    formatNumber ((leader.downloads_monthly : Nat) : ℚ) ++ " monthly downloads\n" ++
  "â€¢ " ++ fastest.name ++ " shows fastest growth at " ++
    ratToFixed1 fastest.growth_pct ++ "% over the period\n" ++
  "\n_Data updated: " ++ first.last_updated ++ "_"

/-- `compareTool.execute`: throws `Unknown tools: ...` when some id is not in
`TOOLS`; with `tools` absent the destructured `undefined` makes
`tools.filter` throw a `TypeError`; an empty (schema-violating) `tools` array
makes the un-seeded `reduce` throw; otherwise it resolves with the report. -/
def compareExecute (args : Args) : Except String String :=
  match args.tools with
  | none => .error "Cannot read properties of undefined (reading \x27filter\x27)"
  | some toolIds =>
    let invalidTools := toolIds.filter (fun id => (TOOLS id).isNone)
    if !invalidTools.isEmpty then
      .error ("Unknown tools: " ++ String.intercalate ", " invalidTools)
    else
      let time_range := args.time_range.getD "30d"
      let months := if time_range == "90d" then 3 else 1
      let comparison := compareRows toolIds months
      match comparison with
      | [] => .error "Reduce of empty array with no initial value"
      | c0 :: rest =>
        .ok (compareOutputStr time_range comparison
          (reduceMaxTail (fun r => r.downloads_monthly) c0 rest)
          (reduceMaxTail (fun r => r.growth_pct) c0 rest) c0)

/-! ## API client (`src/api/client.js`) and formatters (`src/utils/formatters.js`) -/

/-- The view `src/api/client.js` takes of the mock-data module through
`import * as mockData`.  The client calls `mockData.getCurrentMetrics`,
`mockData.getTrendingTools` and `mockData.getHistoricalData`, but
`src/data/mock-data.js` only exports `TOOLS`, `CURRENT_METRICS`,
`HISTORICAL_DATA`, `calculateGrowth`, `getGrowthMetrics`, `getToolsByMetric`
and `searchTools`, so each of those three property reads yields `undefined`
(`none` here) and calling it throws a `TypeError`. -/
structure MockDataNamespace where
  getCurrentMetrics : Option (String → Option MetricsSnapshot)
  getTrendingTools : Option (String → Nat → String → List TrendRow)
  getHistoricalData : Option (String → Nat → List HistoryPoint)

/-- The namespace object that `import * as mockData from
"../data/mock-data.js"` binds: none of the three functions the client wants
exists among the module exports. -/
def mockDataNs : MockDataNamespace :=
  { getCurrentMetrics := none, getTrendingTools := none,
    getHistoricalData := none }

/-- Shape of `_successResponse` / `_errorResponse` for the history endpoint
(`data` flattened to the history array the formatter destructures). -/
structure HistoryApiResponse where
  status : Nat
  ok : Bool
  data : Option (List HistoryPoint)
  error : Option String
deriving DecidableEq, Repr

/-- `ApiClient._errorResponse(status, message)`. -/
def errorResponseH (status : Nat) (message : String) : HistoryApiResponse :=
  ⟨status, false, none, some message⟩

/-- `ApiClient._successResponse(...)` for the history endpoint. -/
def successResponseH (history : List HistoryPoint) : HistoryApiResponse :=
  ⟨200, true, some history, none⟩

/-- `ApiClient.getToolHistory(toolId, months)`: the call
`mockData.getHistoricalData(toolId, months)` throws
`TypeError: mockData.getHistoricalData is not a function` because the
property is `undefined`; the surrounding `try` turns that into
`_errorResponse(500, message)`.  The 404/success branches are dead code but
are modelled for completeness. -/
def apiGetToolHistory (toolId : String) (months : Nat) : HistoryApiResponse :=
  match mockDataNs.getHistoricalData with
  | none => errorResponseH 500 "mockData.getHistoricalData is not a function"
  | some f =>
    let history := f toolId months
    if history.isEmpty then
      errorResponseH 404 ("No history found for \x27" ++ toolId ++ "\x27")
    else successResponseH history

/-- `formatError(error, context)` from `src/utils/formatters.js`. -/
def formatError (message : String) (context : String) : String :=
  let m := "❌ " ++ (if !(context == "") then "Unable to " ++ context ++ ": " else "")
  let m := m ++ (if message == "" then "An unexpected error occurred" else message)
  if jsIncludes message "not found" then
    m ++ "\n\nTry searching for available tools first, or check the tool name spelling."
  else if jsIncludes message "timeout" then
    m ++ "\n\nPlease try again in a moment."
  else m

/-- `q` rounded to one decimal, the numeric value JavaScript reads back when
it coerces a `toFixed(1)` string in arithmetic. -/
def rounded1 (q : ℚ) : ℚ := ((round (q * 10) : ℤ) : ℚ) / 10

/-- JavaScript `s.toUpperCase()` on the ASCII fixture ids. -/
def toUpperStr (s : String) : String := ⟨s.data.map Char.toUpper⟩

/-- `formatHistory(apiResponse, toolId, months)` from
`src/utils/formatters.js` (dead code behind the always-failing API call;
`data[0].name` is `undefined` for history points, so the tool id is used).
The JS `totalGrowth` is a `toFixed(1)` string coerced back to a number for
the average, hence the `rounded1`. -/
def formatHistoryPart0 (data : List HistoryPoint) (toolId : String)
    (months : Nat) : String :=
  if data.isEmpty then "No historical data found for " ++ toolId ++ "."
  else
    let first := data.headD dfltHP
    let last := data.getLastD dfltHP
    let totalGrowth :=
      rounded1 ((((last.downloads : ℚ)) - (first.downloads : ℚ)) /
        (first.downloads : ℚ) * 100)
    let avgMonthlyGrowth := rounded1 (totalGrowth / (months : ℚ))
    "📈 " ++ toUpperStr toolId ++ " - " ++ toString months ++ " Month History\n\n" ++
    "**Download Trend:**\n" ++
    String.join (data.map (fun p =>
      p.month ++ ": " ++ formatNumber ((p.downloads : Nat) : ℚ) ++ " downloads\n")) ++
    "\n**Growth Analysis:**\n" ++
    "• Total Growth: " ++ (if 0 < totalGrowth then "+" else "") ++
      ratToFixed1 totalGrowth ++ "% over " ++ toString months ++ " months\n" ++
    "• Average Monthly: " ++ (if 0 < avgMonthlyGrowth then "+" else "") ++
      ratToFixed1 avgMonthlyGrowth ++ "%\n" ++
    "• Current: " ++ formatNumber ((last.downloads : Nat) : ℚ) ++ " downloads/month\n"

/-! ## History tool (`src/tools/history.js`, the registered implementation) -/

/-- `historyTool.execute` from `src/tools/history.js`: calls the API client;
a non-`ok` response raises `Error(response.error.message)`, which the inner
`catch` converts to `formatError(error, "get tool history")` — so the
execute itself resolves (`.ok`) with an error-formatted text. -/
def historyExecute (args : Args) : Except String String :=
  let tool := args.tool.getD "undefined"
  let months := args.months.getD 6
  let response := apiGetToolHistory tool months
  if response.ok then
    .ok (formatHistoryPart0 (response.data.getD []) tool months)
  else
    .ok (formatError (response.error.getD "") "get tool history")

/-! ## Alternate history tool (`src/unnamed/part_001`) -/

/-- JavaScript `arr.slice(-m)`: the last `min(m, length)` elements, and the
whole array when `m = 0` (`slice(-0)` is `slice(0)`). -/
def jsSliceNeg {α : Type} (l : List α) (m : Nat) : List α :=
  if m == 0 then l else l.drop (l.length - m)

/-- `dataPoints = history.slice(-months)` of the alternate history tool. -/
def altDataPoints (history : List HistoryPoint) (months : Nat) :
    List HistoryPoint :=
  jsSliceNeg history months

/-- `firstMonth = dataPoints[0]`. -/
def altFirstMonth (history : List HistoryPoint) (months : Nat) : HistoryPoint :=
  (altDataPoints history months).headD dfltHP

/-- `lastMonth = dataPoints[dataPoints.length - 1]`. -/
def altLastMonth (history : List HistoryPoint) (months : Nat) : HistoryPoint :=
  (altDataPoints history months).getLastD dfltHP

/-- `totalGrowth = calculateGrowth(lastMonth.downloads, firstMonth.downloads)`. -/
def altTotalGrowth (history : List HistoryPoint) (months : Nat) : ℚ :=
  calculateGrowth ((altLastMonth history months).downloads : ℚ)
    (some ((altFirstMonth history months).downloads : ℚ))

/-- The derived average of the alternate history tool: total growth divided
by the **requested** `months` parameter (`(totalGrowth / months).toFixed(1)`),
not by the number of returned points. -/
def altAvgMonthlyGrowth (history : List HistoryPoint) (months : Nat) : ℚ :=
  altTotalGrowth history months / (months : ℚ)

/-- `historyTool.execute` of `src/unnamed/part_001`: validates the id against
`TOOLS` (throwing `Unknown tool` otherwise), returns a plain message for an
empty history, and otherwise renders the last `months` points with the growth
analysis. -/
def altHistoryExecute (tool : String) (months : Nat) : Except String String :=
  match TOOLS tool with
  | none => .error ("Unknown tool: " ++ tool)
  | some toolInfo =>
    let history := (HISTORICAL_DATA tool).getD []
    let currentMetrics := (CURRENT_METRICS tool).getD dfltMetrics
    if history.isEmpty then
      .ok ("No historical data available for " ++ toolInfo.name)
    else
      let dataPoints := altDataPoints history months
      let totalGrowth := altTotalGrowth history months
      .ok ("📈 " ++ toolInfo.name ++ " - Historical Adoption\n\n" ++
        "**" ++ toolInfo.description ++ "**\n" ++
        "Package: `" ++ toolInfo.package ++ "`\n" ++
        "Category: " ++ toolInfo.category ++ "\n\n" ++
        "**Download History (Monthly)**\n" ++
        String.join (dataPoints.map (fun p =>
          "• " ++ formatDateYM p.month ++ ": " ++
            formatNumber ((p.downloads : Nat) : ℚ) ++ "\n")) ++
        "\n" ++
        "**Growth Analysis**\n" ++
        "• Period: " ++ formatDateYM (altFirstMonth history months).month ++
          " to " ++ formatDateYM (altLastMonth history months).month ++ "\n" ++
        "• Total Growth: " ++ (if 0 < totalGrowth then "+" else "") ++
          ratToFixed1 totalGrowth ++ "%\n" ++
        "• Growth Rate: " ++ ratToFixed1 (altAvgMonthlyGrowth history months) ++
          "% per month\n\n" ++
        "**Current Metrics**\n" ++
        "• Monthly Downloads: " ++
          formatNumber ((currentMetrics.npm_downloads_monthly : Nat) : ℚ) ++ "\n" ++
        "• GitHub Stars: " ++
          formatNumber ((currentMetrics.github_stars : Nat) : ℚ) ++ "\n" ++
        "• Community Activity: " ++
          toString currentMetrics.stackoverflow_questions_30d ++ " SO questions, " ++
          toString currentMetrics.reddit_mentions_30d ++ " Reddit mentions (30d)\n" ++
        "\n_Last updated: " ++ currentMetrics.last_updated ++ "_")

/-! ## Dispatcher (`src/index.js`, `CallToolRequestSchema` handler) -/

/-- What the `tools/call` handler hands back to the protocol runtime:
a success content, an `isError` content, or an exception that escaped the
handler. -/
inductive CallOutcome where
  | ok (text : String)
  | errorContent (text : String)
  | thrown (message : String)
deriving DecidableEq, Repr

/-- Whether an outcome escaped the handler as a fault. -/
def CallOutcome.isThrown : CallOutcome → Bool
  | .thrown _ => true
  | _ => false

/-- A registered tool as the dispatcher sees it. -/
structure McpTool where
  name : String
  execute : Args → Except String String

/-- `compareTool` as registered in `src/index.js`. -/
def compareToolReg : McpTool := ⟨"compare_tools", compareExecute⟩

/-- `trendingTool` as registered in `src/index.js`. -/
def trendingToolReg : McpTool := ⟨"get_trending_tools", trendingExecute⟩

/-- `historyTool` as registered in `src/index.js`. -/
def historyToolReg : McpTool := ⟨"get_tool_history", historyExecute⟩

/-- `searchTool` as registered in `src/index.js`. -/
def searchToolReg : McpTool := ⟨"search_tools", searchExecute⟩

/-- The `tools` registry array of `src/index.js`. -/
def registeredTools : List McpTool :=
  [compareToolReg, trendingToolReg, historyToolReg, searchToolReg]

/-- The `CallToolRequestSchema` handler of `src/index.js`: an unmatched name
throws `Unknown tool: <name>` **outside** the `try` block; a matched tool is
executed inside the `try`, whose `catch` converts a raised failure into the
`Error: <message>` content flagged `isError`. -/
def handleCallTool (registry : List McpTool) (name : String) (args : Args) :
    CallOutcome :=
  match registry.find? (fun t => t.name == name) with
  | none => .thrown ("Unknown tool: " ++ name)
  | some tool =>
    match tool.execute args with
    | .ok result => .ok result
    | .error e => .errorContent ("Error: " ++ e)

/-! ## Claims about the dispatcher and metric engine -/

/-- C7: `growthPercent(x, previous)` is `(x - previous) / previous * 100`
for a non-zero previous sample and exactly `0` when the previous sample is
zero or absent — never infinity, never an error. -/
theorem c7_growth_percent (x p : ℚ) (hp : p ≠ 0) :
    calculateGrowth x (some p) = (x - p) / p * 100 ∧
    calculateGrowth x (some 0) = 0 ∧
    calculateGrowth x none = 0 := by
  refine ⟨?_, ?_, rfl⟩
  · simp [calculateGrowth, hp]
  · simp [calculateGrowth]

/-- Witness for C7 at `x = 300`, `p = 100`. -/
theorem c7_growth_percent_witness :
    calculateGrowth 300 (some 100) = (300 - 100) / 100 * 100 ∧
    calculateGrowth 300 (some 0) = 0 ∧
    calculateGrowth 300 none = 0 :=
  c7_growth_percent 300 100 (by norm_num)

/-- C1 counterexample: invoking the dispatcher with the unregistered name
`nonexistent` makes the handler **throw** (`Unknown tool: nonexistent`),
rather than return a structured error-flagged result: the claim that it
"never throws and returns a structured failure" is false on the code. -/
theorem c1_unknown_operation_counterexample :
    handleCallTool registeredTools "nonexistent" {} =
      CallOutcome.thrown "Unknown tool: nonexistent" ∧
    (handleCallTool registeredTools "nonexistent" {}).isThrown = true := by
  exact ⟨rfl, rfl⟩

/-- C1 (amended): for every operation name that matches no registered
operation, the `tools/call` handler raises `Unknown tool: <name>` — the
lookup failure happens before the `try` block, so it propagates to the
protocol runtime instead of being converted to a structured `isError`
result. -/
theorem c1_unknown_operation_throws (name : String) (args : Args)
    (h : registeredTools.find? (fun t => t.name == name) = none) :
    handleCallTool registeredTools name args =
      CallOutcome.thrown ("Unknown tool: " ++ name) := by
  simp [handleCallTool, h]

/-- Witness for the amended C1 at the name `nonexistent`. -/
theorem c1_unknown_operation_throws_witness :
    registeredTools.find? (fun t => t.name == "nonexistent") = none ∧
    handleCallTool registeredTools "nonexistent" ({} : Args) =
      CallOutcome.thrown ("Unknown tool: " ++ "nonexistent") :=
  ⟨rfl, c1_unknown_operation_throws "nonexistent" {} rfl⟩

/-- C2: for every registered operation and every argument object, a failure
raised by `execute` is caught at the dispatcher boundary and converted into
the structured `Error: <message>` content with the error flag, a resolved
result is passed through, and in neither case does anything escape the
handler as a fault (the dispatcher is a pure function of the call, so a
failed call cannot affect any later call). -/
theorem c2_execute_failure_isolated (name : String) (args : Args) (t : McpTool)
    (hfind : registeredTools.find? (fun u => u.name == name) = some t) :
    (∀ e, t.execute args = Except.error e →
      handleCallTool registeredTools name args =
        CallOutcome.errorContent ("Error: " ++ e)) ∧
    (∀ r, t.execute args = Except.ok r →
      handleCallTool registeredTools name args = CallOutcome.ok r) ∧
    (handleCallTool registeredTools name args).isThrown = false := by
  refine ⟨fun e he => ?_, fun r hr => ?_, ?_⟩
  · simp [handleCallTool, hfind, he]
  · simp [handleCallTool, hfind, hr]
  · cases h : t.execute args <;>
      simp [handleCallTool, hfind, h, CallOutcome.isThrown]

/-- Concrete argument object used in the C2 witness: `compare_tools` with an
id outside the enumerated set, which makes `compareTool.execute` throw. -/
def c2ArgsWitness : Args := { tools := some ["openai", "notreal"] }

/-- Witness for C2: the thrown `Unknown tools: notreal` of the compare tool
is returned as a structured `Error:` content. -/
theorem c2_execute_failure_isolated_witness :
    registeredTools.find? (fun u => u.name == "compare_tools") =
      some compareToolReg ∧
    compareToolReg.execute c2ArgsWitness =
      Except.error "Unknown tools: notreal" ∧
    handleCallTool registeredTools "compare_tools" c2ArgsWitness =
      CallOutcome.errorContent ("Error: " ++ "Unknown tools: notreal") :=
  ⟨rfl, rfl,
    (c2_execute_failure_isolated "compare_tools" c2ArgsWitness compareToolReg
      rfl).1 "Unknown tools: notreal" rfl⟩

/-- C4: the registered `get_tool_history` operation never returns history:
`mock-data.js` defines no `getHistoricalData` export, so
`ApiClient.getToolHistory` always fails with
`mockData.getHistoricalData is not a function`, and for **every** argument
object the execute resolves with the formatted error message instead of a
history report. -/
theorem c4_history_always_error (args : Args) :
    historyExecute args =
      Except.ok
        "❌ Unable to get tool history: mockData.getHistoricalData is not a function" ∧
    mockDataNs.getHistoricalData = none :=
  ⟨rfl, rfl⟩

/-- The search query of C3: `category=llm-api`, `min_downloads=10000000`. -/
def c3Query : SearchQuery :=
  { category := some "llm-api", min_downloads := some 10000000 }

/-- C3 counterexample: on the fixture, `searchTools` with `category=llm-api,
min_downloads=10000000` returns `openai` **and** `anthropic` (anthropic's
monthly figure 13,925,000 is above the threshold), so the claimed result set
`{openai}` is wrong. -/
theorem c3_search_llmapi_counterexample :
    (searchToolsData c3Query).map (·.id) = ["openai", "anthropic"] ∧
    ¬ ((searchToolsData c3Query).map (·.id) = ["openai"]) := by
  exact ⟨by decide, by decide⟩

/-- C3 (amended): the result set is exactly the fixture rows whose category
is `llm-api` and whose monthly downloads are ≥ 10,000,000 — which is
`{openai, anthropic}`, both at the data layer and after the search tool's
default downloads-descending sort. -/
theorem c3_search_llmapi_filter :
    searchToolsData c3Query =
      (TOOLS_entries.map (fun e => mkRow e.1 e.2)).filter
        (fun t => t.category == "llm-api" &&
          decide (10000000 ≤ t.npm_downloads_monthly)) ∧
    (searchToolsData c3Query).map (·.id) = ["openai", "anthropic"] ∧
    (searchResultsOf
        { category := some "llm-api", min_downloads := some 10000000 }).map (·.id)
      = ["openai", "anthropic"] := by
  refine ⟨by decide, by decide, by decide⟩

/-- An id with a `TOOLS` entry is one of the five fixture ids. -/
lemma TOOLS_isSome_cases (tool : String) (h : (TOOLS tool).isSome = true) :
    tool = "openai" ∨ tool = "anthropic" ∨ tool = "cursor" ∨
    tool = "copilot" ∨ tool = "langchain" := by
  rcases hfind : TOOLS_entries.find? (fun e => e.1 == tool) with _ | e
  · rw [TOOLS, hfind] at h
    simp at h
  · have hmem := List.mem_of_find?_eq_some hfind
    have hp := List.find?_some hfind
    have he : e.1 = tool := by simpa using hp
    subst he
    fin_cases hmem <;> simp

/-- C8: the comparison sample of `getGrowthMetrics` is the history point
`months` positions before the latest one, clamped to the earliest point when
the window exceeds the history; on a history shorter than 2 points the
function returns `null` instead of failing and its callers observe growth
`0`, the same value as comparing the single latest point against itself. -/
theorem c8_growth_window_clamp (h : List HistoryPoint) (months : Nat) :
    (2 ≤ h.length → months + 1 ≤ h.length →
      (getGrowthMetricsOf h months).map (·.previous) =
        some ((h.getD (h.length - 1 - months) dfltHP).downloads)) ∧
    (2 ≤ h.length → h.length ≤ months + 1 →
      (getGrowthMetricsOf h months).map (·.previous) =
        some ((h.getD 0 dfltHP).downloads)) ∧
    (h.length < 2 → getGrowthMetricsOf h months = none ∧
      growthPctOfHistory h months = 0) ∧
    (h.length = 1 →
      growthPctOfHistory h months =
        calculateGrowth ((h.headD dfltHP).downloads : ℚ)
          (some ((h.headD dfltHP).downloads : ℚ))) := by
  refine ⟨fun h2 _ => ?_, fun h2 hm => ?_, fun hlt => ?_, fun h1 => ?_⟩
  · simp [getGrowthMetricsOf, Nat.not_lt.mpr h2]
  · have hidx : h.length - 1 - months = 0 := by omega
    simp [getGrowthMetricsOf, Nat.not_lt.mpr h2, hidx]
  · constructor <;> simp [getGrowthMetricsOf, hlt, growthPctOfHistory]
  · have hlt : h.length < 2 := by omega
    have h0 : growthPctOfHistory h months = 0 := by
      simp [growthPctOfHistory, getGrowthMetricsOf, hlt]
    rw [h0]
    simp [calculateGrowth, sub_self]

/-- Two-point history used in the C8 witness. -/
def c8HistTwo : List HistoryPoint := [⟨"2024-01", 100⟩, ⟨"2024-02", 150⟩]

/-- One-point history used in the C8 witness. -/
def c8HistOne : List HistoryPoint := [⟨"2024-01", 70⟩]

/-- Witness for C8: window 5 on a 2-point history clamps to the earliest
point; a 1-point history yields `null` and observed growth `0`. -/
theorem c8_growth_window_clamp_witness :
    2 ≤ c8HistTwo.length ∧ c8HistTwo.length ≤ 5 + 1 ∧
    (getGrowthMetricsOf c8HistTwo 5).map (·.previous) =
      some ((c8HistTwo.getD 0 dfltHP).downloads) ∧
    c8HistOne.length < 2 ∧
    getGrowthMetricsOf c8HistOne 5 = none ∧
    growthPctOfHistory c8HistOne 5 = 0 :=
  ⟨by decide, by decide,
    (c8_growth_window_clamp c8HistTwo 5).2.1 (by decide) (by decide),
    by decide,
    ((c8_growth_window_clamp c8HistOne 5).2.2.1 (by decide)).1,
    ((c8_growth_window_clamp c8HistOne 5).2.2.1 (by decide)).2⟩

/-- C5: the alternate history tool returns the last `months` stored points
(all of them when fewer exist and never an error: for every valid tool id the
execute resolves), total growth is computed from the first to the last
**returned** point, and the average monthly growth divides by the requested
`months` parameter — not by the count of returned points. -/
theorem c5_history_window_semantics (hist : List HistoryPoint) (months : Nat)
    (tool : String) (hne : hist ≠ []) (hm : 1 ≤ months) :
    (altDataPoints hist months).length = min months hist.length ∧
    altDataPoints hist months <:+ hist ∧
    altDataPoints hist months ≠ [] ∧
    altTotalGrowth hist months =
      calculateGrowth
        (((altDataPoints hist months).getLastD dfltHP).downloads : ℚ)
        (some (((altDataPoints hist months).headD dfltHP).downloads : ℚ)) ∧
    altAvgMonthlyGrowth hist months =
      altTotalGrowth hist months / (months : ℚ) ∧
    ((TOOLS tool).isSome = true → (altHistoryExecute tool months).isOk = true) := by
  have h0 : (months == 0) = false := by
    simp
    omega
  have hlen : (altDataPoints hist months).length = min months hist.length := by
    simp [altDataPoints, jsSliceNeg, h0]
    omega
  refine ⟨hlen, ?_, ?_, rfl, rfl, ?_⟩
  · simp only [altDataPoints, jsSliceNeg, h0, Bool.false_eq_true, if_false]
    exact List.drop_suffix _ _
  · have hpos : 0 < (altDataPoints hist months).length := by
      rw [hlen]
      have := List.length_pos.mpr hne
      omega
    exact List.length_pos.mp hpos
  · intro htool
    rcases TOOLS_isSome_cases tool htool with h | h | h | h | h <;> subst h <;> rfl

/-- The openai fixture history, used in the C5 witness. -/
def openaiHistory : List HistoryPoint := (HISTORICAL_DATA "openai").getD []

/-- Witness for C5 at `tool = openai`, `months = 12`: only the 6 stored
points come back and the divisor of the average stays the requested 12. -/
theorem c5_history_window_semantics_witness :
    openaiHistory ≠ [] ∧ (1 : Nat) ≤ 12 ∧
    (altDataPoints openaiHistory 12).length = min 12 openaiHistory.length ∧
    altDataPoints openaiHistory 12 <:+ openaiHistory ∧
    altDataPoints openaiHistory 12 ≠ [] ∧
    altTotalGrowth openaiHistory 12 =
      calculateGrowth
        (((altDataPoints openaiHistory 12).getLastD dfltHP).downloads : ℚ)
        (some (((altDataPoints openaiHistory 12).headD dfltHP).downloads : ℚ)) ∧
    altAvgMonthlyGrowth openaiHistory 12 =
      altTotalGrowth openaiHistory 12 / (12 : ℚ) ∧
    (altHistoryExecute "openai" 12).isOk = true :=
  ⟨by decide, by decide,
    (c5_history_window_semantics openaiHistory 12 "openai" (by decide) (by decide)).1,
    (c5_history_window_semantics openaiHistory 12 "openai" (by decide) (by decide)).2.1,
    (c5_history_window_semantics openaiHistory 12 "openai" (by decide) (by decide)).2.2.1,
    (c5_history_window_semantics openaiHistory 12 "openai" (by decide) (by decide)).2.2.2.1,
    (c5_history_window_semantics openaiHistory 12 "openai" (by decide) (by decide)).2.2.2.2.1,
    (c5_history_window_semantics openaiHistory 12 "openai" (by decide) (by decide)).2.2.2.2.2
      (by decide)⟩

/-- C6: for every trending request (any time range, limit and category), the
rendered list — staged by monthly downloads, category-filtered, growth-rated
over a 3-month window for `90d` and 1 month otherwise, re-sorted by growth
percent and truncated — contains at most `limit` entries and is ordered by
growth percent descending. -/
theorem c6_trending_limit_sorted (time_range category : String) (limit : Nat) :
    (trendingList time_range limit category).length ≤ limit ∧
    (trendingList time_range limit category).Pairwise
      (fun a b => b.growth_pct ≤ a.growth_pct) := by
  letI : IsTotal TrendRow (fun a b => b.growth_pct ≤ a.growth_pct) :=
    ⟨fun a b => le_total b.growth_pct a.growth_pct⟩
  letI : IsTrans TrendRow (fun a b => b.growth_pct ≤ a.growth_pct) :=
    ⟨fun a b c hab hbc => le_trans hbc hab⟩
  refine ⟨List.length_take_le _ _, ?_⟩
  exact List.Pairwise.sublist (List.take_sublist _ _)
    (List.sorted_insertionSort _ _)

/-- Specification-side "maximum with ties broken by first occurrence": the
first element of the list whose value bounds every element's value. -/
def firstMaxBy {α β : Type} [LinearOrder β] (f : α → β) (l : List α) :
    Option α :=
  l.find? (fun y => l.all (fun z => decide (f z ≤ f y)))

/-- The accumulator never decreases through `reduceMaxTail`. -/
lemma reduceMaxTail_le {α β : Type} [LinearOrder β] (f : α → β)
    (l : List α) : ∀ x, f x ≤ f (reduceMaxTail f x l) := by
  induction l with
  | nil => intro x; exact le_refl _
  | cons y ys ih =>
    intro x
    show f x ≤ f (reduceMaxTail f (if f x < f y then y else x) ys)
    split_ifs with h
    · exact le_of_lt (lt_of_lt_of_le h (ih y))
    · exact ih x

/-- `reduceMaxTail` dominates every element it has seen. -/
lemma reduceMaxTail_max {α β : Type} [LinearOrder β] (f : α → β)
    (l : List α) : ∀ x z, z ∈ x :: l → f z ≤ f (reduceMaxTail f x l) := by
  induction l with
  | nil =>
    intro x z hz
    rw [List.mem_singleton] at hz
    subst hz
    exact le_refl _
  | cons y ys ih =>
    intro x z hz
    show f z ≤ f (reduceMaxTail f (if f x < f y then y else x) ys)
    rcases List.mem_cons.mp hz with hzx | hz2
    · subst hzx
      split_ifs with h
      · exact le_of_lt (lt_of_lt_of_le h (reduceMaxTail_le f ys y))
      · exact reduceMaxTail_le f ys z
    · rcases List.mem_cons.mp hz2 with hzy | hz3
      · subst hzy
        split_ifs with h
        · exact reduceMaxTail_le f ys z
        · exact le_trans (not_lt.mp h) (reduceMaxTail_le f ys x)
      · exact ih _ z (List.mem_cons_of_mem _ hz3)

/-- `reduceMaxTail` returns an element of the traversed list. -/
lemma reduceMaxTail_mem {α β : Type} [LinearOrder β] (f : α → β)
    (l : List α) : ∀ x, reduceMaxTail f x l ∈ x :: l := by
  induction l with
  | nil => intro x; exact List.mem_singleton_self x
  | cons y ys ih =>
    intro x
    show reduceMaxTail f (if f x < f y then y else x) ys ∈ x :: y :: ys
    rcases List.mem_cons.mp (ih (if f x < f y then y else x)) with h1 | h2
    · rw [h1]
      split_ifs
      · exact List.mem_cons_of_mem _ (List.mem_cons_self _ _)
      · exact List.mem_cons_self _ _
    · exact List.mem_cons_of_mem _ (List.mem_cons_of_mem _ h2)

/-- Everything strictly before the position where `reduceMaxTail`'s result
sits in the list has a strictly smaller value: a strictly greater value
replaces the accumulator, a tie keeps the earlier element. -/
lemma reduceMaxTail_decomp {α β : Type} [LinearOrder β] (f : α → β)
    (l : List α) :
    ∀ x, ∃ l₁ l₂, x :: l = l₁ ++ reduceMaxTail f x l :: l₂ ∧
      ∀ a ∈ l₁, f a < f (reduceMaxTail f x l) := by
  induction l with
  | nil => intro x; exact ⟨[], [], rfl, by simp⟩
  | cons y ys ih =>
    intro x
    show ∃ l₁ l₂,
      x :: y :: ys = l₁ ++ reduceMaxTail f (if f x < f y then y else x) ys :: l₂ ∧
      ∀ a ∈ l₁, f a < f (reduceMaxTail f (if f x < f y then y else x) ys)
    by_cases h : f x < f y
    · rw [if_pos h]
      obtain ⟨l₁, l₂, heq, hlt⟩ := ih y
      refine ⟨x :: l₁, l₂, ?_, ?_⟩
      · rw [List.cons_append, ← heq]
      · intro a ha
        rcases List.mem_cons.mp ha with h1 | h2
        · subst h1
          exact lt_of_lt_of_le h (reduceMaxTail_le f ys y)
        · exact hlt a h2
    · rw [if_neg h]
      obtain ⟨l₁, l₂, heq, hlt⟩ := ih x
      cases l₁ with
      | nil =>
        rw [List.nil_append] at heq
        have hx := List.head_eq_of_cons_eq heq
        have hys := List.tail_eq_of_cons_eq heq
        refine ⟨[], y :: ys, ?_, by simp⟩
        rw [List.nil_append, ← hx]
      | cons b l₁t =>
        rw [List.cons_append] at heq
        have hx := List.head_eq_of_cons_eq heq
        have hys := List.tail_eq_of_cons_eq heq
        have hx_mem : x ∈ b :: l₁t := by
          rw [← hx]
          exact List.mem_cons_self _ _
        refine ⟨x :: y :: l₁t, l₂, ?_, ?_⟩
        · rw [List.cons_append, List.cons_append, ← hys]
        · intro a ha
          rcases List.mem_cons.mp ha with h1 | h2
          · subst h1
            exact hlt a hx_mem
          · rcases List.mem_cons.mp h2 with h3 | h4
            · subst h3
              exact lt_of_le_of_lt (not_lt.mp h) (hlt x hx_mem)
            · exact hlt a (List.mem_cons_of_mem _ h4)

/-- `find?` locates the marked element of a decomposition whose prefix fails
the predicate. -/
lemma find?_append_cons {α : Type} (p : α → Bool) (l₁ : List α) (b : α)
    (l₂ : List α) (h₁ : ∀ a ∈ l₁, p a = false) (hb : p b = true) :
    (l₁ ++ b :: l₂).find? p = some b := by
  induction l₁ with
  | nil =>
    rw [List.nil_append]
    exact List.find?_cons_of_pos _ hb
  | cons a t ih =>
    rw [List.cons_append,
      List.find?_cons_of_neg _ (by simp [h₁ a (List.mem_cons_self _ _)])]
    exact ih (fun a2 ha2 => h₁ a2 (List.mem_cons_of_mem _ ha2))

/-- The un-seeded JavaScript `reduce` maximum is exactly the first element
attaining the maximum value. -/
lemma reduceMaxTail_eq_firstMax {α β : Type} [LinearOrder β] (f : α → β)
    (x : α) (l : List α) :
    some (reduceMaxTail f x l) = firstMaxBy f (x :: l) := by
  obtain ⟨l₁, l₂, heq, hlt⟩ := reduceMaxTail_decomp f l x
  have hrmem : reduceMaxTail f x l ∈ x :: l := reduceMaxTail_mem f l x
  have hb : ((x :: l).all
      (fun z => decide (f z ≤ f (reduceMaxTail f x l)))) = true := by
    rw [List.all_eq_true]
    intro z hz
    simpa using reduceMaxTail_max f l x z hz
  have h₁ : ∀ a ∈ l₁, ((x :: l).all
      (fun z => decide (f z ≤ f a))) = false := by
    intro a ha
    apply Bool.eq_false_iff.mpr
    intro hall
    rw [List.all_eq_true] at hall
    have hle := hall (reduceMaxTail f x l) hrmem
    rw [decide_eq_true_eq] at hle
    exact absurd hle (not_le.mpr (hlt a ha))
  rw [firstMaxBy, heq]
  rw [heq] at h₁ hb
  exact (find?_append_cons _ l₁ _ l₂ h₁ hb).symm

/-- C9: for every compare request of 2 or 3 tool ids, the "leader" highlight
is the first compared record (in caller input order) attaining the maximum
monthly downloads, and the "fastest-growing" highlight is the first record
attaining the maximum growth percent. -/
theorem c9_compare_highlights (ids : List String) (months : Nat)
    (h2 : 2 ≤ ids.length) (h3 : ids.length ≤ 3) :
    leaderOf (compareRows ids months) =
      firstMaxBy (fun r => r.downloads_monthly) (compareRows ids months) ∧
    fastestOf (compareRows ids months) =
      firstMaxBy (fun r => r.growth_pct) (compareRows ids months) := by
  obtain ⟨a, rest, rfl⟩ : ∃ a rest, ids = a :: rest := by
    cases ids with
    | nil => simp at h2
    | cons a rest => exact ⟨a, rest, rfl⟩
  exact ⟨reduceMaxTail_eq_firstMax _ _ _, reduceMaxTail_eq_firstMax _ _ _⟩

/-- Tool ids used in the C9 witness (`anthropic` first, so the leader really
must come from the maximum, not from input position). -/
def c9Ids : List String := ["anthropic", "openai"]

/-- Witness for C9 at `tools = [anthropic, openai]`, 1-month window. -/
theorem c9_compare_highlights_witness :
    2 ≤ c9Ids.length ∧ c9Ids.length ≤ 3 ∧
    (leaderOf (compareRows c9Ids 1) =
      firstMaxBy (fun r => r.downloads_monthly) (compareRows c9Ids 1) ∧
     fastestOf (compareRows c9Ids 1) =
      firstMaxBy (fun r => r.growth_pct) (compareRows c9Ids 1)) :=
  ⟨by decide, by decide, c9_compare_highlights c9Ids 1 (by decide) (by decide)⟩

/-- The seeded `reduce` in the summary equals the sum of the mapped field. -/
lemma sumDownloads_eq_sum (l : List SToolRow) :
    sumDownloads l = (l.map (·.npm_downloads_monthly)).sum := by
  have key : ∀ (t : List SToolRow) (n : Nat),
      t.foldl (fun s r => s + r.npm_downloads_monthly) n =
        n + (t.map (·.npm_downloads_monthly)).sum := by
    intro t
    induction t with
    | nil => intro n; simp
    | cons a t2 ih =>
      intro n
      simp [List.foldl_cons, ih, List.map_cons, List.sum_cons, Nat.add_assoc]
  simpa [sumDownloads] using key l 0

/-- C10: for every search request, an empty filtered result set makes the
operation return the no-results text right away — the summary (and the
average over `results.length`) is never computed — while a non-empty result
set gets the summary computed over exactly the returned records: total is
the sum of their monthly downloads, averaged over their count. -/
theorem c10_search_summary_skip (args : Args) :
    (searchResultsOf args = [] →
      searchOutput args =
        searchHeader args ++ "No tools found matching your criteria.") ∧
    (searchResultsOf args ≠ [] →
      sumDownloads (searchResultsOf args) =
        ((searchResultsOf args).map (·.npm_downloads_monthly)).sum ∧
      searchOutput args =
        searchHeader args ++ searchFoundSection args ++
          searchSummaryBlock
            (((searchResultsOf args).map (·.npm_downloads_monthly)).sum)
            (searchResultsOf args).length) := by
  constructor
  · intro h
    simp [searchOutput, h]
  · intro h
    refine ⟨sumDownloads_eq_sum _, ?_⟩
    rw [← sumDownloads_eq_sum]
    simp [searchOutput, h]

/-- Search arguments with no match, used in the C10 witness. -/
def c10ArgsEmpty : Args := { keyword := some "zzz-no-such" }

/-- Unfiltered search arguments, used in the C10 witness. -/
def c10ArgsAll : Args := {}

/-- Witness for C10: a no-match keyword takes the summary-free branch, the
unfiltered search computes the summary over the five returned records. -/
theorem c10_search_summary_skip_witness :
    searchResultsOf c10ArgsEmpty = [] ∧
    searchOutput c10ArgsEmpty =
      searchHeader c10ArgsEmpty ++ "No tools found matching your criteria." ∧
    searchResultsOf c10ArgsAll ≠ [] ∧
    (sumDownloads (searchResultsOf c10ArgsAll) =
      ((searchResultsOf c10ArgsAll).map (·.npm_downloads_monthly)).sum ∧
     searchOutput c10ArgsAll =
      searchHeader c10ArgsAll ++ searchFoundSection c10ArgsAll ++
        searchSummaryBlock
          (((searchResultsOf c10ArgsAll).map (·.npm_downloads_monthly)).sum)
          (searchResultsOf c10ArgsAll).length) :=
  ⟨by decide, (c10_search_summary_skip c10ArgsEmpty).1 (by decide),
   by decide, (c10_search_summary_skip c10ArgsAll).2 (by decide)⟩
